import Mathlib

/-!
Shallow embedding of the `chip8` crate (files `memory.rs`, `screen.rs`,
`instruction.rs`, `cpu.rs`) of this repository.

Machine integers are modelled as `Nat` with explicit `% 2^w` at the points
where the Rust code performs wrapping arithmetic.  A Rust panic (out-of-bounds
index, failed `unwrap`, `unreachable!`, arithmetic overflow on `usize`
subtraction) is modelled as `Option.none` / a dedicated `panic` constructor,
and a typed `Err` return is modelled explicitly, so that panicking and
returning an error are distinguishable outcomes.
-/

namespace Chip8Spec

/-! ## memory.rs -/

/-- Rust `CHIP8_MEMORY_SIZE_BYTES`: the amount of memory available to the CHIP-8. -/
def CHIP8_MEMORY_SIZE_BYTES : Nat := 4096

/-- Rust `SPRITES_OFFSET_BYTES`: offset of the default hex digit sprites. -/
def SPRITES_OFFSET_BYTES : Nat := 0x0

/-- Rust `DEFAULT_SPRITES`: the 16 built-in 5-byte glyphs, copied from the source. -/
def DEFAULT_SPRITES : List Nat := [
  0xF0, 0x90, 0x90, 0x90, 0xF0,
  0x20, 0x60, 0x20, 0x20, 0x70,
  0xF0, 0x10, 0xF0, 0x80, 0xF0,
  0xF0, 0x10, 0xF0, 0x10, 0xF0,
  0x90, 0x90, 0xF0, 0x10, 0x10,
  0xF0, 0x80, 0xF0, 0x10, 0xF0,
  0xF0, 0x80, 0xF0, 0x90, 0xF0,
  0xF0, 0x10, 0x20, 0x40, 0x40,
  0xF0, 0x90, 0xF0, 0x90, 0xF0,
  0xF0, 0x90, 0xF0, 0x10, 0xF0,
  0xF0, 0x90, 0xF0, 0x90, 0x90,
  0xE0, 0x90, 0xE0, 0x90, 0xE0,
  0xF0, 0x80, 0x80, 0x80, 0xF0,
  0xE0, 0x90, 0x90, 0x90, 0xE0,
  0xF0, 0x80, 0xF0, 0x80, 0xF0,
  0xF0, 0x80, 0xF0, 0x80, 0x80]

/-- Rust `PROGRAM_OFFSET_BYTES`: offset at which the program bytes are loaded. -/
def PROGRAM_OFFSET_BYTES : Nat := 0x200

/-- Rust `Chip8Memory`: a 4096-byte store, modelled as a function from byte index
to byte value (indices `≥ CHIP8_MEMORY_SIZE_BYTES` are never exposed: every
access goes through the bounds-checked `get`/`set`/`get_bytes` below). -/
structure Chip8Memory where
  data : Nat → Nat

/-- Rust `Chip8Memory::get`: `*self.0.get(index).unwrap()`.  The `unwrap` panics
(`none`) when the index is out of bounds. -/
def Chip8Memory.get (m : Chip8Memory) (index : Nat) : Option Nat :=
  if index < CHIP8_MEMORY_SIZE_BYTES then some (m.data index) else none

/-- Rust `Chip8Memory::set`: `*self.0.get_mut(index).unwrap() = value`. -/
def Chip8Memory.set (m : Chip8Memory) (index : Nat) (value : Nat) :
    Option Chip8Memory :=
  if index < CHIP8_MEMORY_SIZE_BYTES then
    some ⟨fun j => if j = index then value else m.data j⟩
  else none

/-- Rust `Chip8Memory::get_bytes`: the slice `&self.0[index..index + len]`;
slicing panics when the end exceeds the array length. -/
def Chip8Memory.get_bytes (m : Chip8Memory) (index len : Nat) :
    Option (List Nat) :=
  if index + len ≤ CHIP8_MEMORY_SIZE_BYTES then
    some ((List.range len).map (fun i => m.data (index + i)))
  else none

/-- Rust `Chip8Memory::load_bytes`.  Faithful to the source, including the write
loop `self.0[i + 0x200] = *byte` which uses the constant `0x200` instead of
the `offset` parameter, and including the panic (`none`) when that loop would
index past the end of the array. -/
def Chip8Memory.load_bytes (m : Chip8Memory) (offset : Nat)
    (bytes : List Nat) : Option Chip8Memory :=
  if CHIP8_MEMORY_SIZE_BYTES ≤ offset then
    none
  else if CHIP8_MEMORY_SIZE_BYTES - offset < bytes.length then
    none
  else if CHIP8_MEMORY_SIZE_BYTES < bytes.length + 0x200 then
    -- the loop writes at `i + 0x200`; it panics at the first out-of-bounds
    -- index, and the partially mutated memory is discarded with the panic
    none
  else
    some ⟨fun j =>
      if 0x200 ≤ j ∧ j < 0x200 + bytes.length then bytes.getD (j - 0x200) 0
      else m.data j⟩

/-- Rust `Chip8Memory::new`: zero-fill, load the default sprites at
`SPRITES_OFFSET_BYTES`, load the program at `PROGRAM_OFFSET_BYTES`. -/
def Chip8Memory.new (program : List Nat) : Option Chip8Memory := do
  let memory : Chip8Memory := ⟨fun _ => 0⟩
  let memory ← memory.load_bytes SPRITES_OFFSET_BYTES DEFAULT_SPRITES
  memory.load_bytes PROGRAM_OFFSET_BYTES program

/-! ## screen.rs -/

/-- Rust `SCREEN_WIDTH_PIXELS`. -/
def SCREEN_WIDTH_PIXELS : Nat := 64

/-- Rust `SCREEN_HEIGHT_PIXELS`. -/
def SCREEN_HEIGHT_PIXELS : Nat := 32

/-- Rust `Chip8Screen`: row-major pixel store, index `y * 64 + x`. -/
structure Chip8Screen where
  screen : Nat → Bool

/-- Rust `Chip8Screen::new` / `Default::default`. -/
def Chip8Screen.new : Chip8Screen := ⟨fun _ => false⟩

/-- Rust `Chip8Screen::clear`. -/
def Chip8Screen.clear (_ : Chip8Screen) : Chip8Screen := ⟨fun _ => false⟩

/-- Rust `calc_index`: panics (`none`) when the coordinate is outside the screen. -/
def calc_index (x y : Nat) : Option Nat :=
  if SCREEN_WIDTH_PIXELS ≤ x ∨ SCREEN_HEIGHT_PIXELS ≤ y then none
  else some (y * SCREEN_WIDTH_PIXELS + x)

/-- Rust `Chip8Screen::get_pixel`. -/
def Chip8Screen.get_pixel (s : Chip8Screen) (x y : Nat) : Option Bool := do
  let i ← calc_index x y
  return s.screen i

/-- Rust `Chip8Screen::set_pixel`. -/
def Chip8Screen.set_pixel (s : Chip8Screen) (x y : Nat) (value : Bool) :
    Option Chip8Screen := do
  let i ← calc_index x y
  return ⟨fun j => if j = i then value else s.screen j⟩

/-- Body of one iteration of the nested draw loop of
`Chip8Screen::draw_sprite`: read the existing pixel, read the sprite bit
(`sprite[iy] & (0b1000_0000 >> ix)`), record a collision, XOR the pixel. -/
def draw_cell (x y : Nat) (sprite : List Nat) (ix iy : Nat)
    (st : Bool × Chip8Screen) : Option (Bool × Chip8Screen) := do
  let pixel ← st.2.get_pixel (x + ix) (y + iy)
  let row ← if h : iy < sprite.length then some (sprite.get ⟨iy, h⟩) else none
  let sprite_pixel := decide (row &&& (0b10000000 >>> ix) ≠ 0)
  let collision := st.1 || (pixel && sprite_pixel)
  let scr ← st.2.set_pixel (x + ix) (y + iy) (xor pixel sprite_pixel)
  return (collision, scr)

/-- Rust `Chip8Screen::draw_sprite`.  Faithful to the source, including the
computation of `area_height` from `sprite_width` (not `sprite_height`) in the
bottom-clipping branch; `usize` subtraction that would underflow panics
(`none`), as do the out-of-bounds pixel/row accesses in the loop. -/
def Chip8Screen.draw_sprite (scr : Chip8Screen) (x y : Nat)
    (sprite : List Nat) : Option (Bool × Chip8Screen) :=
  if sprite.length = 0 then some (false, scr)
  else
    let x := x % SCREEN_WIDTH_PIXELS
    let y := y % SCREEN_HEIGHT_PIXELS
    let sprite_width := 8
    let sprite_height := sprite.length
    (if SCREEN_WIDTH_PIXELS < x + sprite_width then
      if sprite_width < (x + sprite_width) % SCREEN_WIDTH_PIXELS then none
      else some (sprite_width - (x + sprite_width) % SCREEN_WIDTH_PIXELS)
     else some sprite_width).bind fun area_width =>
    (if SCREEN_HEIGHT_PIXELS < y + sprite_height then
      if sprite_width < (y + sprite_height) % SCREEN_HEIGHT_PIXELS then none
      else some (sprite_width - (y + sprite_height) % SCREEN_HEIGHT_PIXELS)
     else some sprite_height).bind fun area_height =>
    (List.range area_width).foldlM
      (fun st ix =>
        (List.range area_height).foldlM
          (fun st iy => draw_cell x y sprite ix iy st) st)
      (false, scr)

/-! ## instruction.rs -/

/-- Rust `Inst`: valid CHIP-8 instructions (operands as `Nat`: `vx`, `vy`, `n`
are nibbles, `nn` a byte, `nnn` a 12-bit address). -/
inductive Inst where
  | Exe (nnn : Nat)
  | Clear
  | Return
  | Jump (nnn : Nat)
  | Call (nnn : Nat)
  | SkipEqualValue (vx nn : Nat)
  | SkipNotEqualValue (vx nn : Nat)
  | SkipEqualRegister (vx vy : Nat)
  | LoadValue (vx nn : Nat)
  | AddValue (vx nn : Nat)
  | LoadRegister (vx vy : Nat)
  | Or (vx vy : Nat)
  | And (vx vy : Nat)
  | Xor (vx vy : Nat)
  | AddRegister (vx vy : Nat)
  | SubRegisterXY (vx vy : Nat)
  | ShiftRight (vx vy : Nat)
  | SubRegisterYX (vx vy : Nat)
  | ShiftLeft (vx vy : Nat)
  | SkipNotEqualRegister (vx vy : Nat)
  | LoadIntoI (nnn : Nat)
  | JumpAdd (nnn : Nat)
  | LoadRandom (vx nn : Nat)
  | DrawSprite (vx vy n : Nat)
  | SkipIfKey (vx : Nat)
  | SkipIfNotKey (vx : Nat)
  | LoadDelay (vx : Nat)
  | WaitForKey (vx : Nat)
  | SetDelay (vx : Nat)
  | SetSound (vx : Nat)
  | AddToI (vx : Nat)
  | LoadDigitSpriteAddrIntoI (vx : Nat)
  | StoreBCD (vx : Nat)
  | StoreRegisters (vx : Nat)
  | LoadRegisters (vx : Nat)
  deriving DecidableEq, Repr

/-- Rust `DecodeError`. -/
inductive DecodeError where
  | UnknownInstruction (inst : Nat)
  deriving DecidableEq, Repr

/-- Rust `decode`: match on `inst & 0xf000` (written as an if-chain over the 16
possible mask values; Rust's final `unreachable!()` arm is the final `none`).
`some (Except.ok _)` is a decoded instruction, `some (Except.error _)` a
returned `DecodeError`, `none` the unreachable panic. -/
def decode (inst : Nat) : Option (Except DecodeError Inst) :=
  let vx := (inst &&& 0x0f00) >>> 8
  let vy := (inst &&& 0x00f0) >>> 4
  let n := inst &&& 0x000f
  let nn := inst &&& 0x00ff
  let nnn := inst &&& 0x0fff
  if inst &&& 0xf000 = 0x0000 then
    if inst = 0x00e0 then some (.ok .Clear)
    else if inst = 0x00ee then some (.ok .Return)
    else some (.ok (.Exe nnn))
  else if inst &&& 0xf000 = 0x1000 then some (.ok (.Jump nnn))
  else if inst &&& 0xf000 = 0x2000 then some (.ok (.Call nnn))
  else if inst &&& 0xf000 = 0x3000 then some (.ok (.SkipEqualValue vx nn))
  else if inst &&& 0xf000 = 0x4000 then some (.ok (.SkipNotEqualValue vx nn))
  else if inst &&& 0xf000 = 0x5000 then
    if inst &&& 0x000f = 0 then some (.ok (.SkipEqualRegister vx vy))
    else some (.error (.UnknownInstruction inst))
  else if inst &&& 0xf000 = 0x6000 then some (.ok (.LoadValue vx nn))
  else if inst &&& 0xf000 = 0x7000 then some (.ok (.AddValue vx nn))
  else if inst &&& 0xf000 = 0x8000 then
    if inst &&& 0x000f = 0x0000 then some (.ok (.LoadRegister vx vy))
    else if inst &&& 0x000f = 0x0001 then some (.ok (.Or vx vy))
    else if inst &&& 0x000f = 0x0002 then some (.ok (.And vx vy))
    else if inst &&& 0x000f = 0x0003 then some (.ok (.Xor vx vy))
    else if inst &&& 0x000f = 0x0004 then some (.ok (.AddRegister vx vy))
    else if inst &&& 0x000f = 0x0005 then some (.ok (.SubRegisterXY vx vy))
    else if inst &&& 0x000f = 0x0006 then some (.ok (.ShiftRight vx vy))
    else if inst &&& 0x000f = 0x0007 then some (.ok (.SubRegisterYX vx vy))
    else if inst &&& 0x000f = 0x000E then some (.ok (.ShiftLeft vx vy))
    else some (.error (.UnknownInstruction inst))
  else if inst &&& 0xf000 = 0x9000 then some (.ok (.SkipNotEqualRegister vx vy))
  else if inst &&& 0xf000 = 0xa000 then some (.ok (.LoadIntoI nnn))
  else if inst &&& 0xf000 = 0xb000 then some (.ok (.JumpAdd nnn))
  else if inst &&& 0xf000 = 0xc000 then some (.ok (.LoadRandom vx nn))
  else if inst &&& 0xf000 = 0xd000 then some (.ok (.DrawSprite vx vy n))
  else if inst &&& 0xf000 = 0xe000 then
    if inst &&& 0x00ff = 0x009E then some (.ok (.SkipIfKey vx))
    else if inst &&& 0x00ff = 0x00A1 then some (.ok (.SkipIfNotKey vx))
    else some (.error (.UnknownInstruction inst))
  else if inst &&& 0xf000 = 0xf000 then
    if inst &&& 0x00ff = 0x0007 then some (.ok (.LoadDelay vx))
    else if inst &&& 0x00ff = 0x000A then some (.ok (.WaitForKey vx))
    else if inst &&& 0x00ff = 0x0015 then some (.ok (.SetDelay vx))
    else if inst &&& 0x00ff = 0x0018 then some (.ok (.SetSound vx))
    else if inst &&& 0x00ff = 0x001E then some (.ok (.AddToI vx))
    else if inst &&& 0x00ff = 0x0029 then
      some (.ok (.LoadDigitSpriteAddrIntoI vx))
    else if inst &&& 0x00ff = 0x0033 then some (.ok (.StoreBCD vx))
    else if inst &&& 0x00ff = 0x0055 then some (.ok (.StoreRegisters vx))
    else if inst &&& 0x00ff = 0x0065 then some (.ok (.LoadRegisters vx))
    else some (.error (.UnknownInstruction inst))
  else none

/-! ## cpu.rs -/

/-- Rust `STACK_SIZE`. -/
def STACK_SIZE : Nat := 12

/-- Rust `ExecuteError`. -/
inductive ExecuteError where
  | UnimplementedInstruction (inst : Inst)
  | UnknownMachineSubroutine (nnn : Nat)
  | EmptyStackReturn
  | SpriteMemoryOverflow (index : Nat) (len : Nat)
  deriving DecidableEq, Repr

/-- Rust `CycleError`. -/
inductive CycleError where
  | DecodeError (e : DecodeError)
  | ExecuteError (e : ExecuteError)
  deriving DecidableEq, Repr

/-- Rust `Chip8`: the full machine state.  `v_reg` and `stack` are modelled as
functions (meaningful indices `0..15` and `0..11`; `stack` accesses are
bounds-checked where the Rust array indexing is). -/
structure Chip8 where
  memory : Chip8Memory
  screen : Chip8Screen
  v_reg : Nat → Nat
  i_reg : Nat
  stack : Nat → Nat
  stack_ptr : Nat
  pc : Nat
  delay_timer : Nat
  sound_timer : Nat

/-- Pointwise array/register update, `f[i] = v`. -/
def updFn (f : Nat → Nat) (i v : Nat) : Nat → Nat :=
  fun j => if j = i then v else f j

/-- Outcome of `execute_instruction`: a committed state, a typed error
together with the state at the moment of the early `return Err`, or a Rust
panic. -/
inductive ExecResult where
  | ok (s : Chip8)
  | err (e : ExecuteError) (s : Chip8)
  | panic

/-- Outcome of `cycle`. -/
inductive CycleResult where
  | ok (s : Chip8)
  | err (e : CycleError) (s : Chip8)
  | panic

/-- Result of one `match instruction` arm before the trailing
`increment_pc` / `skip_next_instruction` handling: new state plus the two
flags (`increment_pc`, `skip_next_instruction`). -/
inductive ArmResult where
  | next (s : Chip8) (increment_pc skip_next_instruction : Bool)
  | err (e : ExecuteError) (s : Chip8)
  | panic

/-- Rust `u16` program-counter increment `self.pc += 2` (wrapping semantics). -/
def bump_pc (s : Chip8) : Chip8 := { s with pc := (s.pc + 2) % 65536 }

/-- The `for i in 0..16` falling-edge search of the `WaitForKey` arm:
first index whose key was down in the previous snapshot and is up now. -/
def find_falling_edge (keyboard_state previous_keyboard_state : Nat → Bool) :
    Option Nat :=
  (List.range 16).find?
    (fun i => previous_keyboard_state i && !(keyboard_state i))

/-- The `for i in 0..=vx` write loop of the `StoreRegisters` arm. -/
def storeRegs (mem : Chip8Memory) (i_reg : Nat) (v : Nat → Nat) (vx : Nat) :
    Option Chip8Memory :=
  (List.range (vx + 1)).foldlM (fun m i => m.set (i_reg + i) (v i)) mem

/-- The `for i in 0..=vx` read loop of the `LoadRegisters` arm. -/
def loadRegs (mem : Chip8Memory) (i_reg : Nat) (v : Nat → Nat) (vx : Nat) :
    Option (Nat → Nat) :=
  (List.range (vx + 1)).foldlM
    (fun v i => (mem.get (i_reg + i)).map (fun b => updFn v i b)) v

/-- The `match instruction` body of `Chip8::execute_instruction`, one case
per arm, faithful to the source's order of reads and writes (in particular
`VF` writes relative to `VX` writes) and to its flag settings. -/
def execute_arm (s : Chip8) (instruction : Inst)
    (keyboard_state previous_keyboard_state : Nat → Bool) : ArmResult :=
  match instruction with
  | .Exe nnn => .err (.UnknownMachineSubroutine nnn) s
  | .Clear => .next { s with screen := s.screen.clear } true false
  | .Return =>
    if s.stack_ptr = 0 then .err .EmptyStackReturn s
    else if s.stack_ptr - 1 < STACK_SIZE then
      .next { s with pc := s.stack (s.stack_ptr - 1),
                     stack_ptr := s.stack_ptr - 1 } true false
    else .panic
  | .Jump nnn => .next { s with pc := nnn } false false
  | .Call nnn =>
    if s.stack_ptr < STACK_SIZE then
      .next { s with stack := updFn s.stack s.stack_ptr s.pc,
                     stack_ptr := s.stack_ptr + 1, pc := nnn } false false
    else .panic
  | .SkipEqualValue vx nn => .next s true (decide (s.v_reg vx = nn))
  | .SkipNotEqualValue vx nn => .next s true (decide (s.v_reg vx ≠ nn))
  | .SkipEqualRegister vx vy =>
    .next s true (decide (s.v_reg vx = s.v_reg vy))
  | .LoadValue vx nn => .next { s with v_reg := updFn s.v_reg vx nn } true false
  | .AddValue vx nn =>
    .next { s with v_reg := updFn s.v_reg vx ((s.v_reg vx + nn) % 256) }
      true false
  | .LoadRegister vx vy =>
    .next { s with v_reg := updFn s.v_reg vx (s.v_reg vy) } true false
  | .Or vx vy =>
    .next { s with v_reg := updFn s.v_reg vx (s.v_reg vx ||| s.v_reg vy) }
      true false
  | .And vx vy =>
    .next { s with v_reg := updFn s.v_reg vx (s.v_reg vx &&& s.v_reg vy) }
      true false
  | .Xor vx vy =>
    .next { s with v_reg := updFn s.v_reg vx (s.v_reg vx ^^^ s.v_reg vy) }
      true false
  | .AddRegister vx vy =>
    let a := s.v_reg vx
    let b := s.v_reg vy
    -- `checked_add` succeeds iff no `u8` overflow; the block computing the
    -- assigned value writes `VF` first, then the result lands in `VX`
    if a + b ≤ 255 then
      .next { s with v_reg := updFn (updFn s.v_reg 0xf 0) vx (a + b) }
        true false
    else
      .next { s with v_reg := updFn (updFn s.v_reg 0xf 1) vx ((a + b) % 256) }
        true false
  | .SubRegisterXY vx vy =>
    let a := s.v_reg vx
    let b := s.v_reg vy
    if b ≤ a then
      .next { s with v_reg := updFn (updFn s.v_reg 0xf 1) vx (a - b) }
        true false
    else
      .next { s with
                v_reg := updFn (updFn s.v_reg 0xf 0) vx ((a + 256 - b) % 256) }
        true false
  | .ShiftRight vx vy =>
    let flag := s.v_reg vy &&& 0b00000001
    .next { s with
              v_reg := updFn (updFn s.v_reg vx (s.v_reg vy >>> 1)) 0xf flag }
      true false
  | .SubRegisterYX vx vy =>
    let a := s.v_reg vx
    let b := s.v_reg vy
    if a ≤ b then
      .next { s with v_reg := updFn (updFn s.v_reg 0xf 1) vx (b - a) }
        true false
    else
      .next { s with
                v_reg := updFn (updFn s.v_reg 0xf 0) vx ((b + 256 - a) % 256) }
        true false
  | .ShiftLeft vx vy =>
    let flag := (s.v_reg vy &&& 0b10000000) >>> 7
    .next { s with
              v_reg :=
                updFn (updFn s.v_reg vx ((s.v_reg vy <<< 1) % 256)) 0xf flag }
      true false
  | .SkipNotEqualRegister vx vy =>
    .next s true (decide (s.v_reg vx ≠ s.v_reg vy))
  | .LoadIntoI nnn => .next { s with i_reg := nnn } true false
  | .JumpAdd nnn => .next { s with pc := nnn + s.v_reg 0 } false false
  | .LoadRandom vx nn =>
    -- the source hardcodes the byte `123` (its own TODO notes the missing
    -- pseudo-random generator)
    .next { s with v_reg := updFn s.v_reg vx (123 &&& nn) } true false
  | .DrawSprite vx vy n =>
    if CHIP8_MEMORY_SIZE_BYTES < s.i_reg + n then
      .err (.SpriteMemoryOverflow s.i_reg n) s
    else
      match s.memory.get_bytes s.i_reg n with
      | none => .panic
      | some sprite =>
        match s.screen.draw_sprite (s.v_reg vx) (s.v_reg vy) sprite with
        | none => .panic
        | some (collision, scr) =>
          .next { s with screen := scr,
                         v_reg := updFn s.v_reg 0xf (if collision then 1 else 0) }
            true false
  | .SkipIfKey vx =>
    if s.v_reg vx < 16 then .next s true (keyboard_state (s.v_reg vx))
    else .panic
  | .SkipIfNotKey vx =>
    if s.v_reg vx < 16 then .next s true (!(keyboard_state (s.v_reg vx)))
    else .panic
  | .LoadDelay vx =>
    .next { s with v_reg := updFn s.v_reg vx s.delay_timer } true false
  | .WaitForKey vx =>
    match find_falling_edge keyboard_state previous_keyboard_state with
    | some i => .next { s with v_reg := updFn s.v_reg vx i } true false
    | none => .next s false false
  | .SetDelay vx => .next { s with delay_timer := s.v_reg vx } true false
  | .SetSound vx => .next { s with sound_timer := s.v_reg vx } true false
  | .AddToI vx => .next { s with i_reg := s.i_reg + s.v_reg vx } true false
  | .LoadDigitSpriteAddrIntoI vx =>
    .next { s with i_reg := SPRITES_OFFSET_BYTES + vx } true false
  | .StoreBCD vx =>
    let value := s.v_reg vx
    let ones := value % 10
    let tens := (value / 10) % 10
    let hundreds := (value / 100) % 10
    match s.memory.set s.i_reg hundreds with
    | none => .panic
    | some m1 =>
      match m1.set (s.i_reg + 1) tens with
      | none => .panic
      | some m2 =>
        match m2.set (s.i_reg + 2) ones with
        | none => .panic
        | some m3 => .next { s with memory := m3 } true false
  | .StoreRegisters vx =>
    match storeRegs s.memory s.i_reg s.v_reg vx with
    | none => .panic
    | some m =>
      .next { s with memory := m, i_reg := s.i_reg + vx + 1 } true false
  | .LoadRegisters vx =>
    match loadRegs s.memory s.i_reg s.v_reg vx with
    | none => .panic
    | some v =>
      .next { s with v_reg := v, i_reg := s.i_reg + vx + 1 } true false

/-- Rust `Chip8::execute_instruction`: run the arm, then apply the
`increment_pc` / `skip_next_instruction` flags to the program counter. -/
def execute_instruction (s : Chip8) (instruction : Inst)
    (keyboard_state previous_keyboard_state : Nat → Bool) : ExecResult :=
  match execute_arm s instruction keyboard_state previous_keyboard_state with
  | .next s' increment_pc skip_next_instruction =>
    let s' := if increment_pc then bump_pc s' else s'
    let s' := if skip_next_instruction then bump_pc s' else s'
    .ok s'
  | .err e s' => .err e s'
  | .panic => .panic

/-- Rust `Chip8::get_instruction`: big-endian 16-bit fetch at `pc`. -/
def Chip8.get_instruction (s : Chip8) : Option Nat := do
  let hi ← s.memory.get s.pc
  let lo ← s.memory.get (s.pc + 1)
  return (hi <<< 8) ||| lo

/-- Rust `Chip8::cycle`: fetch, decode, execute; decode failures are wrapped in
`CycleError.DecodeError`, execute failures in `CycleError.ExecuteError`. -/
def cycle (s : Chip8)
    (keyboard_state previous_keyboard_state : Nat → Bool) : CycleResult :=
  match s.get_instruction with
  | none => .panic
  | some instruction_bytes =>
    match decode instruction_bytes with
    | none => .panic
    | some (.error e) => .err (.DecodeError e) s
    | some (.ok instruction) =>
      match execute_instruction s instruction
              keyboard_state previous_keyboard_state with
      | .ok s' => .ok s'
      | .err e s' => .err (.ExecuteError e) s'
      | .panic => .panic

/-! ## Concrete states used by the closed theorems and witnesses -/

/-- All-keys-up keyboard snapshot. -/
def keysOff : Nat → Bool := fun _ => false

/-- A machine state with zeroed registers, stack, timers, memory and screen
(program counter at the program offset). -/
def baseChip8 : Chip8 :=
  { memory := ⟨fun _ => 0⟩
    screen := Chip8Screen.new
    v_reg := fun _ => 0
    i_reg := 0
    stack := fun _ => 0
    stack_ptr := 0
    pc := PROGRAM_OFFSET_BYTES
    delay_timer := 0
    sound_timer := 0 }

/-- Projection used to state results about a single register: `V i` of the
committed state, or `none` when execution did not commit a state. -/
def ExecResult.vregOf (r : ExecResult) (i : Nat) : Option Nat :=
  match r with
  | .ok s => some (s.v_reg i)
  | _ => none

/-- State with `V0 = 3` (all other registers zero). -/
def shiftCxState : Chip8 := { baseChip8 with v_reg := updFn baseChip8.v_reg 0 3 }

/-- State with `VF = 5`, `V0 = 2` (all other registers zero). -/
def subCxState : Chip8 :=
  { baseChip8 with v_reg := updFn (updFn baseChip8.v_reg 0xf 5) 0 2 }

/-! ## Theorems -/

/-- Claim C1.  The constructed memory does NOT hold the font table at offset
0: with the one-byte program `[0xAB]`, byte 0 is `0` (the claim expects the
first font byte `0xF0`), byte `0x200` is the program byte, byte `0x201` is
the residue `0x90` of the font table that `load_bytes` wrongly wrote at
`0x200` (the claim expects `0`); with the empty program, byte `0x200` is the
first font byte `0xF0`. -/
theorem claim_C1_font_location :
    (Chip8Memory.new [0xAB]).bind (fun m => m.get 0) = some 0 ∧
    (Chip8Memory.new [0xAB]).bind (fun m => m.get 0x200) = some 0xAB ∧
    (Chip8Memory.new [0xAB]).bind (fun m => m.get 0x201) = some 0x90 ∧
    (Chip8Memory.new []).bind (fun m => m.get 0x200) = some 0xF0 :=
  ⟨rfl, rfl, rfl, rfl⟩

/-- Claim C2.  Drawing a 2-row sprite anchored at `y = 31` does not clip the
rectangle to one row: the bottom-clipping branch computes `area_height` from
`sprite_width`, yielding `7`, and the draw then reads pixel `(0, 32)` out of
bounds and panics (`none`) instead of XOR-blitting the clipped rectangle. -/
theorem claim_C2_draw_sprite_bottom_clip :
    Chip8Screen.new.draw_sprite 0 31 [0xFF, 0xFF] = none := rfl

/-- Claim C3.  Executing `Call` with the stack pointer at capacity 12 writes
`stack[12]`, an out-of-bounds index: the machine panics (aborts) instead of
returning a typed stack-overflow error. -/
theorem claim_C3_call_overflow_panics :
    execute_instruction { baseChip8 with stack_ptr := 12 } (Inst.Call 0x300)
      keysOff keysOff = ExecResult.panic := rfl

/-- Claim C9.  `LoadRandom` is fully deterministic: in every machine state
and for every keyboard input it stores exactly `123 &&& nn` into `VX` (the
random byte is the hardcoded constant `123`), so no two executions from
identical states can store different values. -/
theorem claim_C9_load_random_hardcoded :
    ∀ (s : Chip8) (ks pks : Nat → Bool) (vx nn : Nat),
      (execute_instruction s (Inst.LoadRandom vx nn) ks pks).vregOf vx =
        some (123 &&& nn) := by
  intro s ks pks vx nn
  simp [execute_instruction, execute_arm, ExecResult.vregOf, bump_pc, updFn]

/-- Claim C10.  `LoadDigitSpriteAddrIntoI` sets `I` to
`SPRITES_OFFSET_BYTES + vx` — the operand itself, not a function of the
value in `V[vx]` — advances `pc` by 2, and changes nothing else. -/
theorem claim_C10_digit_sprite_addr :
    ∀ (s : Chip8) (ks pks : Nat → Bool) (vx : Nat),
      execute_instruction s (Inst.LoadDigitSpriteAddrIntoI vx) ks pks =
        ExecResult.ok
          { s with i_reg := SPRITES_OFFSET_BYTES + vx,
                   pc := (s.pc + 2) % 65536 } := by
  intro s ks pks vx
  rfl

/-- Claim C5 counterexample.  `ShiftRight {vx = 0, vy = 0}` with `V0 = 3`
changes `VY` (= `V0`) from 3 to 1, refuting "leave VY itself unchanged" as
stated for every pair of register indices. -/
theorem claim_C5_counterexample :
    (execute_instruction shiftCxState (Inst.ShiftRight 0 0) keysOff
        keysOff).vregOf 0 ≠ some 3 ∧
    (execute_instruction shiftCxState (Inst.ShiftRight 0 0) keysOff
        keysOff).vregOf 0 = some 1 := by
  exact ⟨by decide, rfl⟩

/-- Claim C5 as amended.  Both shifts read the value from `VY`, write `VF`
last with the bit shifted out of `VY`'s pre-shift value (LSB for right, MSB
for left — this part holds for all indices), write the shifted value to `VX`
provided `vx ≠ 0xF` (otherwise the flag write overwrites it), and leave `VY`
unchanged provided `vy ≠ 0xF` and `vy ≠ vx`. -/
theorem claim_C5_shift_amended :
    ∀ (s : Chip8) (ks pks : Nat → Bool) (vx vy : Nat),
      ((execute_instruction s (Inst.ShiftRight vx vy) ks pks).vregOf 0xf =
          some (s.v_reg vy &&& 0b00000001)) ∧
      (vx ≠ 0xf →
        (execute_instruction s (Inst.ShiftRight vx vy) ks pks).vregOf vx =
          some (s.v_reg vy >>> 1)) ∧
      (vy ≠ 0xf → vy ≠ vx →
        (execute_instruction s (Inst.ShiftRight vx vy) ks pks).vregOf vy =
          some (s.v_reg vy)) ∧
      ((execute_instruction s (Inst.ShiftLeft vx vy) ks pks).vregOf 0xf =
          some ((s.v_reg vy &&& 0b10000000) >>> 7)) ∧
      (vx ≠ 0xf →
        (execute_instruction s (Inst.ShiftLeft vx vy) ks pks).vregOf vx =
          some ((s.v_reg vy <<< 1) % 256)) ∧
      (vy ≠ 0xf → vy ≠ vx →
        (execute_instruction s (Inst.ShiftLeft vx vy) ks pks).vregOf vy =
          some (s.v_reg vy)) := by
  intro s ks pks vx vy
  refine ⟨?_, fun h1 => ?_, fun h1 h2 => ?_, ?_, fun h1 => ?_,
    fun h1 h2 => ?_⟩ <;>
    simp_all [execute_instruction, execute_arm, ExecResult.vregOf, bump_pc,
      updFn]

/-- Claim C5 witness: the amended theorem applied at
`ShiftRight {vx = 1, vy = 0}` in a concrete state with `V0 = 3`. -/
theorem claim_C5_witness :
    ((execute_instruction shiftCxState (Inst.ShiftRight 1 0) keysOff
        keysOff).vregOf 0xf = some (shiftCxState.v_reg 0 &&& 0b00000001)) ∧
    ((execute_instruction shiftCxState (Inst.ShiftRight 1 0) keysOff
        keysOff).vregOf 1 = some (shiftCxState.v_reg 0 >>> 1)) ∧
    ((execute_instruction shiftCxState (Inst.ShiftRight 1 0) keysOff
        keysOff).vregOf 0 = some (shiftCxState.v_reg 0)) := by
  have h := claim_C5_shift_amended shiftCxState keysOff keysOff 1 0
  exact ⟨h.1, h.2.1 (by decide), h.2.2.1 (by decide) (by decide)⟩

/-- Claim C6 counterexample.  `SubRegisterXY {vx = 0xF, vy = 0}` with
`VF = 5`, `V0 = 2`: no borrow occurs, yet `VF` ends holding the difference 3
rather than the claimed flag 1, because the assignment to `VX = VF` happens
after the flag write. -/
theorem claim_C6_counterexample :
    (execute_instruction subCxState (Inst.SubRegisterXY 0xf 0) keysOff
        keysOff).vregOf 0xf ≠ some 1 ∧
    (execute_instruction subCxState (Inst.SubRegisterXY 0xf 0) keysOff
        keysOff).vregOf 0xf = some 3 := by
  exact ⟨by decide, rfl⟩

/-- Claim C6 as amended.  Provided `vx ≠ 0xF` (and `u8`-ranged register
values), `SubRegisterXY` stores `(old VX − old VY) mod 256` into `VX` and
sets `VF` to 1 exactly when no borrow occurred (`old VX ≥ old VY`); when
`vx = 0xF` the difference overwrites the flag. -/
theorem claim_C6_sub_borrow_amended :
    ∀ (s : Chip8) (ks pks : Nat → Bool) (vx vy : Nat),
      vx ≠ 0xf → s.v_reg vx < 256 → s.v_reg vy < 256 →
      (execute_instruction s (Inst.SubRegisterXY vx vy) ks pks).vregOf vx =
          some ((((s.v_reg vx : ℤ) - (s.v_reg vy : ℤ)) % 256).toNat) ∧
      (execute_instruction s (Inst.SubRegisterXY vx vy) ks pks).vregOf 0xf =
          some (if s.v_reg vy ≤ s.v_reg vx then 1 else 0) := by
  intro s ks pks vx vy hvx ha hb
  by_cases hle : s.v_reg vy ≤ s.v_reg vx <;>
    simp [execute_instruction, execute_arm, ExecResult.vregOf, bump_pc,
      updFn, hvx, hle] <;>
    omega

/-- Claim C6 witness: the amended theorem applied at `SubRegisterXY {0, 15}`
in the concrete state with `V0 = 2`, `VF = 5` (a borrow case: result
`2 − 5 mod 256 = 253`, flag 0). -/
theorem claim_C6_witness :
    (execute_instruction subCxState (Inst.SubRegisterXY 0 0xf) keysOff
        keysOff).vregOf 0 =
        some ((((subCxState.v_reg 0 : ℤ) - (subCxState.v_reg 0xf : ℤ)) %
          256).toNat) ∧
    (execute_instruction subCxState (Inst.SubRegisterXY 0 0xf) keysOff
        keysOff).vregOf 0xf =
        some (if subCxState.v_reg 0xf ≤ subCxState.v_reg 0 then 1 else 0) :=
  claim_C6_sub_borrow_amended subCxState keysOff keysOff 0 0xf (by decide)
    (by decide) (by decide)

/-- Bitwise and distributes over division by a power of two. -/
theorem and_div_two_pow (k a b : Nat) :
    (a &&& b) / 2 ^ k = a / 2 ^ k &&& b / 2 ^ k := by
  induction k with
  | zero => simp
  | succ k ih =>
    rw [pow_succ, ← Nat.div_div_eq_div_mul, ih, Nat.and_div_two,
      ← Nat.div_div_eq_div_mul, ← Nat.div_div_eq_div_mul]

/-- For a 16-bit word, masking with `0xf000` isolates the high nibble. -/
theorem and_f000_eq (inst : Nat) (h : inst < 65536) :
    inst &&& 0xf000 = 4096 * (inst / 4096) := by
  have hd : (inst &&& 0xf000) / 4096 = inst / 4096 := by
    have h1 := and_div_two_pow 12 inst 0xf000
    norm_num at h1
    rw [h1]
    have h15 : (15 : Nat) = 2 ^ 4 - 1 := by norm_num
    rw [h15, Nat.and_pow_two_sub_one_eq_mod]
    exact Nat.mod_eq_of_lt (by omega)
  have hm : (inst &&& 0xf000) % 4096 = 0 := by
    have h2 : (inst &&& 0xf000) % 4096 =
        (inst &&& 0xf000) &&& (2 ^ 12 - 1) := by
      rw [Nat.and_pow_two_sub_one_eq_mod]
    have h3 : (61440 : Nat) &&& 4095 = 0 := by decide
    rw [h2, Nat.and_assoc]
    norm_num [h3]
  omega

set_option maxHeartbeats 1000000 in
/-- Claim C7.  `decode` is total on 16-bit words (the `unreachable!` arm is
never taken), and every word with high nibble 0 other than `0x00E0` and
`0x00EE` decodes to `Exe` carrying the low 12 bits rather than to a decode
error. -/
theorem claim_C7_decode_total :
    (∀ inst : Nat, inst < 65536 → (decode inst).isSome = true) ∧
    (∀ inst : Nat, inst < 65536 → inst &&& 0xf000 = 0 → inst ≠ 0x00e0 →
      inst ≠ 0x00ee →
      decode inst = some (Except.ok (Inst.Exe (inst &&& 0x0fff)))) := by
  constructor
  · intro inst h
    have hq : inst / 4096 < 16 := by omega
    have hm := and_f000_eq inst h
    set q := inst / 4096 with hqdef
    interval_cases q <;>
      (simp only [decode, hm]; try norm_num) <;> (repeat' split) <;> try rfl
  · intro inst _ h h1 h2
    simp [decode, h, h1, h2]

/-- Claim C7 witness: totality and the machine-subroutine case at the
concrete word `0x0123`. -/
theorem claim_C7_witness :
    (decode 0x0123).isSome = true ∧
    decode 0x0123 = some (Except.ok (Inst.Exe (0x0123 &&& 0x0fff))) :=
  ⟨claim_C7_decode_total.1 0x0123 (by decide),
   claim_C7_decode_total.2 0x0123 (by decide) (by decide) (by decide)
     (by decide)⟩

/-- Claim C8.  `WaitForKey` completes — stores a falling-edge key index into
`VX` and advances `pc` by 2 — exactly when some key was down in the previous
snapshot and is up in the current one; with no such edge the state is
returned completely unchanged (so the instruction is re-fetched next
cycle). -/
theorem claim_C8_wait_for_key :
    ∀ (s : Chip8) (ks pks : Nat → Bool) (vx : Nat),
      ((∀ i, i < 16 → ¬(pks i = true ∧ ks i = false)) →
        execute_instruction s (Inst.WaitForKey vx) ks pks =
          ExecResult.ok s) ∧
      (∀ j, j < 16 → pks j = true → ks j = false →
        ∃ i, i < 16 ∧ pks i = true ∧ ks i = false ∧
          execute_instruction s (Inst.WaitForKey vx) ks pks =
            ExecResult.ok
              { s with v_reg := updFn s.v_reg vx i,
                       pc := (s.pc + 2) % 65536 }) := by
  intro s ks pks vx
  constructor
  · intro hno
    have hnone : find_falling_edge ks pks = none := by
      rw [find_falling_edge, List.find?_eq_none]
      intro i hi
      have hi16 : i < 16 := List.mem_range.mp hi
      have := hno i hi16
      cases hp : pks i <;> cases hk : ks i <;> simp_all
    simp [execute_instruction, execute_arm, hnone]
  · intro j hj hpj hkj
    cases hf : find_falling_edge ks pks with
    | none =>
      exfalso
      rw [find_falling_edge, List.find?_eq_none] at hf
      have := hf j (List.mem_range.mpr hj)
      simp [hpj, hkj] at this
    | some i =>
      have hmem : i ∈ List.range 16 := List.mem_of_find?_eq_some hf
      have hprop := List.find?_some hf
      refine ⟨i, List.mem_range.mp hmem, ?_, ?_, ?_⟩
      · cases hp : pks i <;> simp_all
      · cases hk : ks i <;> simp_all
      · simp [execute_instruction, execute_arm, hf]
        rfl

/-- Claim C8 witness: no edge with all keys up (state unchanged), and the
falling edge of key 5 completes with `V3 = 5`. -/
theorem claim_C8_witness :
    (execute_instruction baseChip8 (Inst.WaitForKey 3) keysOff keysOff =
      ExecResult.ok baseChip8) ∧
    (∃ i, i < 16 ∧ (fun k : Nat => decide (k = 5)) i = true ∧
      keysOff i = false ∧
      execute_instruction baseChip8 (Inst.WaitForKey 3) keysOff
          (fun k : Nat => decide (k = 5)) =
        ExecResult.ok
          { baseChip8 with v_reg := updFn baseChip8.v_reg 3 i,
                           pc := (baseChip8.pc + 2) % 65536 }) :=
  ⟨(claim_C8_wait_for_key baseChip8 keysOff keysOff 3).1 (by decide),
   (claim_C8_wait_for_key baseChip8 keysOff
       (fun k : Nat => decide (k = 5)) 3).2 5 (by decide) (by decide)
     (by decide)⟩

/-- Every typed error produced by an instruction arm is returned before any
mutation: the state carried by the error is the entry state. -/
theorem execute_arm_err_eq (s : Chip8) (i : Inst) (ks pks : Nat → Bool)
    (e : ExecuteError) (r : Chip8)
    (h : execute_arm s i ks pks = ArmResult.err e r) : r = s := by
  cases i <;> simp only [execute_arm] at h <;> (repeat' split at h) <;>
    simp_all

/-- Every typed error of `execute_instruction` carries the entry state. -/
theorem execute_instruction_err_eq (s : Chip8) (i : Inst)
    (ks pks : Nat → Bool) (e : ExecuteError) (r : Chip8)
    (h : execute_instruction s i ks pks = ExecResult.err e r) : r = s := by
  unfold execute_instruction at h
  split at h
  · simp at h
  · next e0 s0 harm =>
      have hs := execute_arm_err_eq s i ks pks e0 s0 harm
      injection h with h1 h2
      rw [← h2]
      exact hs
  · simp at h

/-- Claim C4.  Whenever `cycle` returns a typed error, the state it reports
is exactly the entry state — no register, stack, timer, memory or screen
mutation has been committed; in particular `Return` with stack pointer 0
yields `EmptyStackReturn` with the state untouched. -/
theorem claim_C4_error_atomicity :
    (∀ (s : Chip8) (ks pks : Nat → Bool) (e : CycleError) (r : Chip8),
       cycle s ks pks = CycleResult.err e r → r = s) ∧
    (∀ (s : Chip8) (ks pks : Nat → Bool), s.stack_ptr = 0 →
       execute_instruction s Inst.Return ks pks =
         ExecResult.err ExecuteError.EmptyStackReturn s) := by
  constructor
  · intro s ks pks e r h
    unfold cycle at h
    split at h
    · simp at h
    · split at h
      · simp at h
      · cases h; rfl
      · split at h
        · simp at h
        · next e0 s0 hexec =>
            have hs := execute_instruction_err_eq s _ ks pks e0 s0 hexec
            injection h with h1 h2
            rw [← h2]
            exact hs
        · simp at h
  · intro s ks pks h
    simp [execute_instruction, execute_arm, h]

/-- Claim C4 witness: in the all-zero state, `cycle` fetches `0x0000`,
decodes it to `Exe`, fails with `UnknownMachineSubroutine`, and the reported
state is the entry state; `Return` on the empty stack errs likewise. -/
theorem claim_C4_witness :
    baseChip8 = baseChip8 ∧
    execute_instruction baseChip8 Inst.Return keysOff keysOff =
      ExecResult.err ExecuteError.EmptyStackReturn baseChip8 :=
  ⟨claim_C4_error_atomicity.1 baseChip8 keysOff keysOff
     (CycleError.ExecuteError (ExecuteError.UnknownMachineSubroutine 0))
     baseChip8 rfl,
   claim_C4_error_atomicity.2 baseChip8 keysOff keysOff rfl⟩

end Chip8Spec
